import Mathlib

/-!
Verification of the real-time stock dashboard's data-synchronization core
against its natural-language specification.  Definitions are shallow
embeddings of the JavaScript source (src/unnamed/part_000, the StockCard /
Utils / StockDashboard classes, and src/js/config.js); theorems settle the
frozen claims C1..C10.

JS numbers are modelled as rationals where exact arithmetic is involved and
as integers (milliseconds) for timestamps; JS truthiness of a numeric field
is modelled as presence (Option) together with the value being nonzero.
-/

namespace StockDashboard

/-! ## Configuration constants (src/js/config.js) -/

/-- CONFIG.API.RETRY_ATTEMPTS. -/
def CONFIG_API_RETRY_ATTEMPTS : Nat := 3

/-- CONFIG.API.RETRY_DELAY in milliseconds. -/
def CONFIG_API_RETRY_DELAY : Nat := 2000

/-- CONFIG.POLLING.MAX_RETRIES. -/
def POLLING_MAX_RETRIES : Nat := 3

/-- CONFIG.POLLING.AUTO_PAUSE_ON_ERROR. -/
def POLLING_AUTO_PAUSE_ON_ERROR : Bool := true

/-- CONFIG.POLLING.AUTO_RESUME_DELAY in milliseconds. -/
def POLLING_AUTO_RESUME_DELAY : Nat := 30000

/-- CONFIG.POLLING.BACKOFF_MULTIPLIER. -/
def POLLING_BACKOFF_MULTIPLIER : Nat := 2

/-- CONFIG.POLLING.MAX_INTERVAL in milliseconds. -/
def POLLING_MAX_INTERVAL : Nat := 3600000

/-! ## Alerts (StockCard.setAlert / StockCard.checkAlerts)

`setAlert(price)` stores `alerts[symbol] = { price, created: Date.now(),
triggered: false }`; there is no direction field and no creation price in
the stored record.  `checkAlerts` fires when
`(alert.price >= alert.created && currentPrice >= alert.price) ||
 (alert.price < alert.created && currentPrice <= alert.price)`,
i.e. it compares the price threshold against the creation timestamp. -/

/-- The alert record stored by `StockCard.setAlert`: a price threshold, the
creation timestamp `Date.now()` in milliseconds, and the one-shot flag. -/
structure StockAlert where
  price : ℚ
  created : ℚ
  triggered : Bool
deriving DecidableEq, Repr

/-- The firing condition of `StockCard.checkAlerts` (source lines 398-399):
`(alert.price >= alert.created && currentPrice >= alert.price) ||
 (alert.price < alert.created && currentPrice <= alert.price)`. -/
def checkAlertsShouldFire (a : StockAlert) (currentPrice : ℚ) : Bool :=
  (decide (a.created ≤ a.price) && decide (a.price ≤ currentPrice)) ||
  (decide (a.price < a.created) && decide (currentPrice ≤ a.price))

/-- `StockCard.checkAlerts` on one snapshot: given the stored alert for this
symbol (if any) and the current data price (if any), returns the updated
alert record and whether the alert fired.  Mirrors the guard
`if (alert && !alert.triggered && this.data)` and, on fire, sets
`alert.triggered = true`. -/
def checkAlerts (alert : Option StockAlert) (data : Option ℚ) :
    Option StockAlert × Bool :=
  match alert, data with
  | some a, some currentPrice =>
    if !a.triggered && checkAlertsShouldFire a currentPrice then
      (some { a with triggered := true }, true)
    else
      (some a, false)
  | a, _ => (a, false)

/-- Feed a sequence of snapshot prices through `checkAlerts` in order,
returning the final alert record and the list of fire events (one Bool per
snapshot, in order). -/
def runAlertSequence (alert : Option StockAlert) (prices : List ℚ) :
    Option StockAlert × List Bool :=
  prices.foldl
    (fun st p =>
      let r := checkAlerts st.1 (some p)
      (r.1, st.2 ++ [r.2]))
    (alert, [])

/-- Modelled from the spec: the intended firing rule for a `change`
direction alert (spec section 4.4), which the source does not implement
(the stored alert record has neither a direction nor a creation price):
fires when `abs((price - createdPrice) / createdPrice) * 100 >=
thresholdPrice`. -/
def changeAlertFiresSpec (thresholdPrice createdPrice price : ℚ) : Bool :=
  decide (|(price - createdPrice) / createdPrice| * 100 ≥ thresholdPrice)

/-! ## localStorage cache (Utils.setLocalStorage / Utils.getLocalStorage)

`setLocalStorage(key, value, expiry)` stores
`{ value, timestamp: Date.now(), expiry: expiry ? Date.now() + expiry : null }`
and returns true; `getLocalStorage(key, defaultValue)` returns the default
on a missing key, removes the entry and returns the default when
`item.expiry && Date.now() > item.expiry`, and otherwise returns the stored
value.  JS truthiness of the numeric `expiry` is modelled by the explicit
`e ≠ 0` test. -/

/-- The record written by `Utils.setLocalStorage`: payload, write timestamp
(`Date.now()`), and the absolute expiry instant (null when no ttl given). -/
structure StorageItem (α : Type) where
  value : α
  timestamp : ℤ
  expiry : Option ℤ
deriving DecidableEq, Repr

/-- The browser localStorage, keyed by string. -/
def LocalStorage (α : Type) : Type := List (String × StorageItem α)

/-- `localStorage.getItem(key)`. -/
def lsGet {α : Type} (s : LocalStorage α) (key : String) :
    Option (StorageItem α) :=
  (s.find? (fun e => e.1 == key)).map (fun e => e.2)

/-- `localStorage.setItem(key, item)`: overwrites any entry for `key`. -/
def lsSet {α : Type} (s : LocalStorage α) (key : String)
    (item : StorageItem α) : LocalStorage α :=
  (key, item) :: s.filter (fun e => !(e.1 == key))

/-- `localStorage.removeItem(key)`. -/
def lsRemove {α : Type} (s : LocalStorage α) (key : String) :
    LocalStorage α :=
  s.filter (fun e => !(e.1 == key))

/-- `Utils.setLocalStorage(key, value, expiry)` evaluated at instant `now`:
stores `{ value, timestamp: now, expiry: expiry ? now + expiry : null }`
and reports success. -/
def setLocalStorage {α : Type} (now : ℤ) (key : String) (value : α)
    (expiry : Option ℤ) (s : LocalStorage α) : Bool × LocalStorage α :=
  let storedExpiry : Option ℤ :=
    match expiry with
    | some e => if e ≠ 0 then some (now + e) else none
    | none => none
  (true, lsSet s key { value := value, timestamp := now, expiry := storedExpiry })

/-- `Utils.getLocalStorage(key, defaultValue)` evaluated at instant `now`:
returns the retrieved value (or the default) together with the resulting
store (the entry is removed when it is found expired). -/
def getLocalStorage {α : Type} (now : ℤ) (key : String) (defaultValue : α)
    (s : LocalStorage α) : α × LocalStorage α :=
  match lsGet s key with
  | none => (defaultValue, s)
  | some item =>
    match item.expiry with
    | some e =>
      if e ≠ 0 ∧ now > e then (defaultValue, lsRemove s key)
      else (item.value, s)
    | none => (item.value, s)

/-- A cached quote snapshot; `asOf` is the quote's own timestamp, carried
inside the stored value. -/
structure Snapshot where
  price : ℚ
  asOf : ℤ
deriving DecidableEq, Repr

/-! ## Retrying requests (Utils.makeRequest)

`makeRequest` runs `attemptRequest`, which increments `attempts`, and on a
non-2xx status (`onreadystatechange`), a network error (`onerror`) or a
timeout (`ontimeout`) re-runs itself after `delay * attempts` milliseconds
as long as `attempts < maxAttempts`, rejecting otherwise; a 2xx response
resolves immediately. -/

/-- Outcome of one underlying request attempt: the three failure callbacks
of `makeRequest` (`status` outside 200-299, `onerror`, `ontimeout`) and the
2xx success path. -/
inductive AttemptOutcome where
  | ok
  | httpError
  | networkError
  | timeoutError
deriving DecidableEq, Repr

/-- Whether an attempt outcome resolves the request
(`xhr.status >= 200 && xhr.status < 300`). -/
def AttemptOutcome.isSuccess : AttemptOutcome → Bool
  | .ok => true
  | _ => false

/-- Result of `Utils.makeRequest`: whether the promise resolved, how many
attempts were made, and the retry delays that were slept in order (the
delay recorded before attempt `n+1` is `delay * n`). -/
structure RequestResult where
  success : Bool
  attempts : Nat
  delays : List Nat
deriving DecidableEq, Repr

/-- The `attemptRequest` loop of `Utils.makeRequest`: `attempts` is the
count of attempts already made, `fuel` bounds the remaining recursion
(`makeRequest` supplies `maxAttempts`, which suffices since the loop stops
once `attempts` reaches `maxAttempts`).  `source n` is the outcome of the
n-th attempt (1-based). -/
def attemptRequest (source : Nat → AttemptOutcome) (maxAttempts delay : Nat) :
    Nat → Nat → RequestResult
  | attempts, fuel =>
    let a := attempts + 1
    if (source a).isSuccess then
      { success := true, attempts := a, delays := [] }
    else if a < maxAttempts then
      match fuel with
      | 0 => { success := false, attempts := a, delays := [] }
      | fuel' + 1 =>
        let r := attemptRequest source maxAttempts delay a fuel'
        { success := r.success, attempts := r.attempts,
          delays := delay * a :: r.delays }
    else
      { success := false, attempts := a, delays := [] }

/-- `Utils.makeRequest` against an abstract attempt source: starts with
`attempts = 0` and retries per `attemptRequest`. -/
def makeRequest (source : Nat → AttemptOutcome) (maxAttempts delay : Nat) :
    RequestResult :=
  attemptRequest source maxAttempts delay 0 maxAttempts

/-! ## Portfolio totals (StockDashboard.updateStats)

`updateStats` folds over the stock cards: a card contributes iff
`data && data.regularMarketPrice && data.regularMarketPreviousClose` are
all truthy, adding `price` to `totalValue`, `price - previousClose` to
`totalChange` and bumping `validCards`.  Only when `validCards > 0` is a
portfolio-change line rendered, with
`changePercent = totalValue > 0 ? (totalChange / (totalValue - totalChange)) * 100 : 0`. -/

/-- The fields of a card's data record read by `updateStats`; `none` models
an absent field, a present value of `0` is falsy in JS and also skipped. -/
structure CardData where
  regularMarketPrice : Option ℚ
  regularMarketPreviousClose : Option ℚ
deriving DecidableEq, Repr

/-- The `(price, previousClose)` pair of a card when the card passes the
truthiness guard of `updateStats`, and `none` otherwise. -/
def cardValidPair (card : Option CardData) : Option (ℚ × ℚ) :=
  match card with
  | some d =>
    match d.regularMarketPrice, d.regularMarketPreviousClose with
    | some p, some q => if p ≠ 0 ∧ q ≠ 0 then some (p, q) else none
    | _, _ => none
  | none => none

/-- One iteration of the `updateStats` loop body. -/
def updateStatsStep (acc : ℚ × ℚ × Nat) (card : Option CardData) :
    ℚ × ℚ × Nat :=
  match cardValidPair card with
  | some pq => (acc.1 + pq.1, acc.2.1 + (pq.1 - pq.2), acc.2.2 + 1)
  | none => acc

/-- The accumulation loop of `updateStats` over the cards, in iteration
order: `(totalValue, totalChange, validCards)`. -/
def updateStatsLoop (cards : List (Option CardData)) : ℚ × ℚ × Nat :=
  cards.foldl updateStatsStep (0, 0, 0)

/-- The cards passing the truthiness guard of `updateStats`, as their
`(price, previousClose)` pairs, in order. -/
def validPairs (cards : List (Option CardData)) : List (ℚ × ℚ) :=
  cards.filterMap cardValidPair

/-- The portfolio statistics produced by `updateStats`; `changePercent` is
`none` when no valid card exists (the code then leaves the
portfolio-change display untouched). -/
structure PortfolioStats where
  totalValue : ℚ
  totalChange : ℚ
  validCards : Nat
  changePercent : Option ℚ
deriving DecidableEq, Repr

/-- `StockDashboard.updateStats` as a function of the tracked cards' data. -/
def updateStats (cards : List (Option CardData)) : PortfolioStats :=
  let acc := updateStatsLoop cards
  { totalValue := acc.1
    totalChange := acc.2.1
    validCards := acc.2.2
    changePercent :=
      if 0 < acc.2.2 then
        some (if 0 < acc.1 then acc.2.1 / (acc.1 - acc.2.1) * 100 else 0)
      else none }

/-! ## Market status (Utils.getMarketStatus)

The `HH:MM` strings of the configuration compare lexicographically exactly
as their minute values compare, so times of day are modelled as minutes
since midnight in the market timezone. -/

/-- CONFIG.MARKET.TRADING_DAYS (JS weekday numbers, 0 = Sunday). -/
def MARKET_TRADING_DAYS : List Nat := [1, 2, 3, 4, 5]

/-- CONFIG.MARKET.HOLIDAYS (ISO date strings). -/
def MARKET_HOLIDAYS : List String :=
  ["2025-01-01", "2025-01-20", "2025-02-17", "2025-04-18", "2025-05-26",
   "2025-07-04", "2025-09-01", "2025-11-27", "2025-12-25"]

/-- CONFIG.MARKET.HOURS.OPEN, "09:30", as minutes since midnight. -/
def MARKET_OPEN_MIN : Nat := 570

/-- CONFIG.MARKET.HOURS.CLOSE, "16:00", as minutes since midnight. -/
def MARKET_CLOSE_MIN : Nat := 960

/-- CONFIG.MARKET.EXTENDED_HOURS.PRE_MARKET_START, "04:00". -/
def PRE_MARKET_START_MIN : Nat := 240

/-- CONFIG.MARKET.EXTENDED_HOURS.PRE_MARKET_END, "09:30". -/
def PRE_MARKET_END_MIN : Nat := 570

/-- CONFIG.MARKET.EXTENDED_HOURS.AFTER_HOURS_START, "16:00". -/
def AFTER_HOURS_START_MIN : Nat := 960

/-- CONFIG.MARKET.EXTENDED_HOURS.AFTER_HOURS_END, "20:00". -/
def AFTER_HOURS_END_MIN : Nat := 1200

/-- An instant as `getMarketStatus` observes it after conversion to the
market timezone: JS weekday (0 = Sunday .. 6 = Saturday), the ISO date
string, and the time of day in minutes since midnight. -/
structure MarketTime where
  weekday : Nat
  dateString : String
  timeMin : Nat
deriving DecidableEq, Repr

/-- The record returned by `Utils.getMarketStatus` (the `marketTime` field,
a Date object, is omitted). -/
structure MarketStatus where
  isOpen : Bool
  isTradingDay : Bool
  isHoliday : Bool
  isExtendedHours : Bool
  isPreMarket : Bool
  isAfterHours : Bool
  status : String
  statusText : String
deriving DecidableEq, Repr

/-- `Utils.getMarketStatus` evaluated at a market-timezone instant. -/
def getMarketStatus (t : MarketTime) : MarketStatus :=
  let isTradingDay := MARKET_TRADING_DAYS.contains t.weekday
  let isHoliday := MARKET_HOLIDAYS.contains t.dateString
  let isMarketHours :=
    decide (MARKET_OPEN_MIN ≤ t.timeMin) && decide (t.timeMin < MARKET_CLOSE_MIN)
  let isPreMarket :=
    decide (PRE_MARKET_START_MIN ≤ t.timeMin) && decide (t.timeMin < PRE_MARKET_END_MIN)
  let isAfterHours :=
    decide (AFTER_HOURS_START_MIN ≤ t.timeMin) && decide (t.timeMin < AFTER_HOURS_END_MIN)
  let isOpen := isTradingDay && !isHoliday && isMarketHours
  let isExtendedHours := isTradingDay && !isHoliday && (isPreMarket || isAfterHours)
  { isOpen := isOpen
    isTradingDay := isTradingDay
    isHoliday := isHoliday
    isExtendedHours := isExtendedHours
    isPreMarket := isPreMarket
    isAfterHours := isAfterHours
    status :=
      if isOpen then "open" else if isExtendedHours then "extended" else "closed"
    statusText :=
      if isOpen then "Market Open"
      else if isExtendedHours then "Extended Hours"
      else if isHoliday then "Market Holiday"
      else if !isTradingDay then "Market Closed - Weekend"
      else "Market Closed" }

/-! ## Card loading (StockCard.loadData / refresh / startAutoRefresh)

`loadData` begins with `if (this.isLoading) return;`; otherwise it sets
`isLoading = true`, clears the error overlay, performs exactly one fetch,
on success shifts `data` into `previousData` and stores the new data, on
failure sets the error flag, and finally clears `isLoading`.  `refresh()`
just calls `loadData()`.  The auto-refresh interval callback runs
`loadData` only when `!document.hidden && !this.isLoading`. -/

/-- The StockCard state observed by `loadData`. -/
structure CardState where
  isLoading : Bool
  hasError : Bool
  data : Option CardData
  previousData : Option CardData
deriving DecidableEq, Repr

/-- `StockCard.loadData`, with the fetch outcome supplied as a parameter
(`some d` for a successful response carrying data `d`, `none` for any
failure).  Returns the resulting state and the number of fetches issued by
this call. -/
def loadData (outcome : Option CardData) (s : CardState) : CardState × Nat :=
  if s.isLoading then (s, 0)
  else
    let s1 := { s with isLoading := true, hasError := false }
    match outcome with
    | some d =>
      ({ s1 with previousData := s1.data, data := some d, isLoading := false }, 1)
    | none =>
      ({ s1 with hasError := true, isLoading := false }, 1)

/-- `StockCard.refresh`: delegates to `loadData`. -/
def refresh (outcome : Option CardData) (s : CardState) : CardState × Nat :=
  loadData outcome s

/-- One tick of the interval armed by `StockCard.startAutoRefresh`:
`if (!document.hidden && !this.isLoading) this.loadData();`. -/
def autoRefreshTick (hidden : Bool) (outcome : Option CardData)
    (s : CardState) : CardState × Nat :=
  if !hidden && !s.isLoading then loadData outcome s else (s, 0)

/-! ## Scheduler failure handling and auto-pause

Modelled from the spec: the Scheduler state machine of spec section 4.1,
steps 4 and 5 (failure counting, exponential interval backoff, auto-pause
after `MAX_RETRIES` consecutive failures, automatic resume once
`pausedUntil` is reached).  The repository's src contains only the
configuration knobs (CONFIG.POLLING in src/js/config.js); the
StockCard.startAutoRefresh timer carries no failure counter and no pause
logic, so the scheduler itself is missing from src and is taken from the
spec's words. -/

/-- Modelled from the spec: the per-symbol scheduling phase (spec section
4.1); LOADING is subsumed by the in-flight guard, so ticks observe IDLE or
PAUSED. -/
inductive SchedPhase where
  | idle
  | paused
deriving DecidableEq, Repr

/-- Modelled from the spec: the mutable scheduling fields of a
TrackedSymbol (spec section 3). -/
structure SchedulerState where
  phase : SchedPhase
  consecutiveFailures : Nat
  intervalMs : Nat
  pausedUntil : Nat
deriving DecidableEq, Repr

/-- Modelled from the spec: one scheduler tick for a symbol at instant
`now` whose fetch (if issued) succeeds iff `succeeds`; returns the next
state and the number of fetches issued.  While PAUSED and
`now < pausedUntil`, no fetch is issued and nothing changes; once
`now >= pausedUntil` the symbol returns to IDLE with
`consecutiveFailures = 0`.  On a failed fetch the failure count grows, the
interval backs off to `min(intervalMs * BACKOFF_MULTIPLIER, MAX_INTERVAL)`,
and when `consecutiveFailures >= MAX_RETRIES` with auto-pause enabled the
symbol transitions to PAUSED with `pausedUntil = now + AUTO_RESUME_DELAY`. -/
def schedTick (now : Nat) (succeeds : Bool) (s : SchedulerState) :
    SchedulerState × Nat :=
  match s.phase with
  | .paused =>
    if s.pausedUntil ≤ now then
      ({ s with phase := .idle, consecutiveFailures := 0 }, 0)
    else (s, 0)
  | .idle =>
    if succeeds then
      ({ s with consecutiveFailures := 0 }, 1)
    else
      let failures := s.consecutiveFailures + 1
      let nextInterval :=
        min (s.intervalMs * POLLING_BACKOFF_MULTIPLIER) POLLING_MAX_INTERVAL
      if POLLING_MAX_RETRIES ≤ failures ∧ POLLING_AUTO_PAUSE_ON_ERROR then
        ({ phase := .paused, consecutiveFailures := failures,
           intervalMs := nextInterval,
           pausedUntil := now + POLLING_AUTO_RESUME_DELAY }, 1)
      else
        ({ s with consecutiveFailures := failures,
                  intervalMs := nextInterval }, 1)

/-! ## Configuration validation (src/js/config.js)

`applyEnvironmentConfig` deep-merges `ENVIRONMENT_OVERRIDES[environment]`
into CONFIG; among the fields inspected by `validateConfig`, only the
development override touches one (`POLLING.DEFAULT_INTERVAL = 10000`).
`validateConfig` collects error strings and throws when any exist;
`initializeConfig` runs the merge then the validation inside try/catch and
returns true on success, false on a caught exception. -/

/-- CONFIG.APP.ENVIRONMENT values recognised by `ENVIRONMENT_OVERRIDES`. -/
inductive Environment where
  | development
  | staging
  | production
deriving DecidableEq, Repr

/-- The configuration fields read by `validateConfig`, plus the
environment selector consulted by `applyEnvironmentConfig`. -/
structure Config where
  environment : Environment
  pollingMinInterval : ℤ
  pollingMaxInterval : ℤ
  pollingDefaultInterval : ℤ
  cacheMaxSize : ℤ
  currencyDecimals : ℤ
deriving DecidableEq, Repr

/-- `applyEnvironmentConfig`, restricted to the validated fields: the
development override sets `POLLING.DEFAULT_INTERVAL` to 10000; the staging
and production overrides touch none of the validated fields. -/
def applyEnvironmentConfig (c : Config) : Config :=
  match c.environment with
  | .development => { c with pollingDefaultInterval := 10000 }
  | .staging => c
  | .production => c

/-- The error list accumulated by `validateConfig`. -/
def validateConfigErrors (c : Config) : List String :=
  (if c.pollingMinInterval ≥ c.pollingMaxInterval then
     ["POLLING.MIN_INTERVAL must be less than POLLING.MAX_INTERVAL"]
   else []) ++
  (if c.pollingDefaultInterval < c.pollingMinInterval ∨
      c.pollingDefaultInterval > c.pollingMaxInterval then
     ["POLLING.DEFAULT_INTERVAL must be between MIN_INTERVAL and MAX_INTERVAL"]
   else []) ++
  (if c.cacheMaxSize ≤ 0 then
     ["CACHE.MAX_SIZE must be greater than 0"]
   else []) ++
  (if c.currencyDecimals < 0 ∨ c.currencyDecimals > 10 then
     ["FORMAT.CURRENCY_DECIMALS must be between 0 and 10"]
   else [])

/-- `validateConfig`: throws (modelled as `Except.error`) exactly when the
error list is non-empty. -/
def validateConfig (c : Config) : Except String Unit :=
  if (validateConfigErrors c).isEmpty then Except.ok ()
  else Except.error "Configuration validation failed"

/-- `initializeConfig`: applies the environment overrides, validates, and
converts a thrown validation error into `false`. -/
def initializeConfig (c : Config) : Bool :=
  match validateConfig (applyEnvironmentConfig c) with
  | .ok _ => true
  | .error _ => false

/-! ## Theorems for the claims -/

/-- Claim C1 (code bug).  The claim states the `change` direction fires iff
`abs((price - createdPrice) / createdPrice) * 100 ≥ thresholdPrice`.  The
source stores no direction and no creation price, and `checkAlerts`
compares the price threshold against the creation timestamp.  Concretely:
an alert with threshold 5 created at timestamp 1700000000000 over a
creation price of 100, evaluated on a new snapshot of price 110
(a 10 percent move, so the spec's rule fires), does not fire in the code,
because `alert.price >= alert.created` is false and `110 <= 5` is false. -/
theorem C1_change_alert_code_divergence :
    checkAlerts (some ⟨5, 1700000000000, false⟩) (some 110) =
      (some ⟨5, 1700000000000, false⟩, false) ∧
    changeAlertFiresSpec 5 100 110 = true := by
  constructor
  · rfl
  · have h : |(1 : ℚ) / 10| = 1 / 10 := abs_of_nonneg (by norm_num)
    norm_num [changeAlertFiresSpec, h]

/-- Claim C2 (code bug).  The claim states an `above` alert with threshold
100 fed prices `[95, 98, 101, 105]` fires exactly once, on 101.  In the
code the stored alert has no direction; since the threshold (100) is far
below the creation timestamp (`Date.now()`, here 1700000000000), the
branch taken is `currentPrice <= alert.price`, so the alert fires on the
very first snapshot, 95, and the remaining evaluations (including 101) are
no-ops on the already-triggered alert: the fire vector is
`[true, false, false, false]`, not `[false, false, true, false]`. -/
theorem C2_above_alert_fires_at_95_not_101 :
    runAlertSequence (some ⟨100, 1700000000000, false⟩) [95, 98, 101, 105] =
      (some ⟨100, 1700000000000, true⟩, [true, false, false, false]) := by
  rfl

/-- Claim C3, counterexample.  The claim states a cache write is rejected
when the stored entry for the symbol carries a strictly newer `asOf`.  In
the code `setLocalStorage` rejects nothing: starting from a store holding
a snapshot with `asOf = 10` for the key, writing a snapshot with
`asOf = 5` reports success and replaces the stored entry, leaving the
older snapshot in the cache. -/
theorem C3_stale_write_not_rejected :
    (setLocalStorage 1 "stock-data-A" (⟨100, 5⟩ : Snapshot) none
        (lsSet ([] : LocalStorage Snapshot) "stock-data-A" ⟨⟨100, 10⟩, 0, none⟩)).1 = true ∧
    (lsGet (setLocalStorage 1 "stock-data-A" (⟨100, 5⟩ : Snapshot) none
        (lsSet ([] : LocalStorage Snapshot) "stock-data-A" ⟨⟨100, 10⟩, 0, none⟩)).2
        "stock-data-A").map (fun it => it.value.asOf) = some 5 ∧
    (lsGet (lsSet ([] : LocalStorage Snapshot) "stock-data-A" ⟨⟨100, 10⟩, 0, none⟩)
        "stock-data-A").map (fun it => it.value.asOf) = some 10 := by
  refine ⟨rfl, rfl, rfl⟩

/-- Claim C3 as amended.  `setLocalStorage` performs no stale-write
rejection: every write reports success and unconditionally replaces the
stored entry for its key (last-write-wins), whatever `asOf` either value
carries; the stored record's `timestamp` is the write instant. -/
theorem C3_amended_put_overwrites {α : Type} (now : ℤ) (key : String)
    (value : α) (expiry : Option ℤ) (s : LocalStorage α) :
    (setLocalStorage now key value expiry s).1 = true ∧
    (lsGet (setLocalStorage now key value expiry s).2 key).map
        (fun it => it.value) = some value ∧
    (lsGet (setLocalStorage now key value expiry s).2 key).map
        (fun it => it.timestamp) = some now := by
  refine ⟨rfl, ?_, ?_⟩ <;> simp [setLocalStorage, lsSet, lsGet, List.find?]

/-- Claim C6 (confirmed).  For an entry stored in the cache with an expiry
instant `e` (stored expiries are `Date.now() + ttl`, hence positive), a
read strictly after `e` returns the default with the entry removed, and a
read at any instant up to and including `e` returns the stored value and
leaves the store unchanged. -/
theorem C6_get_respects_expiry {α : Type} (now : ℤ) (key : String)
    (defaultValue : α) (s : LocalStorage α) (item : StorageItem α) (e : ℤ)
    (hfound : lsGet s key = some item) (hexp : item.expiry = some e)
    (hpos : 0 < e) :
    (e < now → getLocalStorage now key defaultValue s =
        (defaultValue, lsRemove s key)) ∧
    (now ≤ e → getLocalStorage now key defaultValue s = (item.value, s)) := by
  constructor
  · intro hlt
    simp only [getLocalStorage, hfound, hexp]
    rw [if_pos ⟨by omega, by omega⟩]
  · intro hle
    simp only [getLocalStorage, hfound, hexp]
    rw [if_neg (by omega)]

/-- Witness for claim C6 at a concrete store: the entry under "stock-data-A"
expires at instant 10; reading at 11 misses and removes it, reading at 10
hits. -/
theorem C6_get_respects_expiry_witness :
    getLocalStorage (11 : ℤ) "stock-data-A" (0 : ℚ)
        [("stock-data-A", ⟨7, 3, some 10⟩)] =
      (0, lsRemove [("stock-data-A", ⟨7, 3, some 10⟩)] "stock-data-A") ∧
    getLocalStorage (10 : ℤ) "stock-data-A" (0 : ℚ)
        [("stock-data-A", ⟨7, 3, some 10⟩)] =
      (7, [("stock-data-A", ⟨7, 3, some 10⟩)]) := by
  constructor
  · exact (C6_get_respects_expiry 11 "stock-data-A" 0
      [("stock-data-A", ⟨7, 3, some 10⟩)] ⟨7, 3, some 10⟩ 10
      rfl rfl (by decide)).1 (by decide)
  · exact (C6_get_respects_expiry 10 "stock-data-A" 0
      [("stock-data-A", ⟨7, 3, some 10⟩)] ⟨7, 3, some 10⟩ 10
      rfl rfl (by decide)).2 (by decide)

/-- A non-2xx, network-error or timeout outcome does not resolve the
request. -/
theorem AttemptOutcome.isSuccess_eq_false {a : AttemptOutcome}
    (h : a ≠ .ok) : a.isSuccess = false := by
  cases a <;> simp_all [AttemptOutcome.isSuccess]

/-- Claim C4 (confirmed).  Against a source whose first two attempts fail
(with any of the three retried failure kinds: non-2xx, network error,
timeout) and whose third succeeds, `makeRequest` with
`RETRY_ATTEMPTS = 3` resolves successfully after exactly 3 attempts, and
the delays slept are `1 * RETRY_DELAY` before the second attempt and
`2 * RETRY_DELAY` before the third: linear in the attempt index. -/
theorem C4_makeRequest_retries_linearly (source : Nat → AttemptOutcome)
    (h1 : source 1 ≠ .ok) (h2 : source 2 ≠ .ok) (h3 : source 3 = .ok) :
    makeRequest source CONFIG_API_RETRY_ATTEMPTS CONFIG_API_RETRY_DELAY =
      { success := true, attempts := 3,
        delays := [CONFIG_API_RETRY_DELAY * 1, CONFIG_API_RETRY_DELAY * 2] } := by
  have e1 := AttemptOutcome.isSuccess_eq_false h1
  have e2 := AttemptOutcome.isSuccess_eq_false h2
  have e3 : (source 3).isSuccess = true := by rw [h3]; rfl
  simp [makeRequest, CONFIG_API_RETRY_ATTEMPTS, CONFIG_API_RETRY_DELAY,
    attemptRequest, e1, e2, e3]

/-- Witness for claim C4 with the concrete source that fails on attempts 1
and 2 (network error, then timeout) and succeeds on attempt 3. -/
theorem C4_makeRequest_retries_linearly_witness :
    makeRequest
        (fun n => if n = 1 then .networkError
                  else if n = 2 then .timeoutError else .ok)
        CONFIG_API_RETRY_ATTEMPTS CONFIG_API_RETRY_DELAY =
      { success := true, attempts := 3,
        delays := [CONFIG_API_RETRY_DELAY * 1, CONFIG_API_RETRY_DELAY * 2] } :=
  C4_makeRequest_retries_linearly
    (fun n => if n = 1 then .networkError
              else if n = 2 then .timeoutError else .ok)
    (by decide) (by decide) (by decide)

/-- The `updateStats` accumulation, started from any accumulator, adds the
sums over the valid cards componentwise. -/
theorem foldl_updateStatsStep (cards : List (Option CardData)) :
    ∀ acc : ℚ × ℚ × Nat,
      cards.foldl updateStatsStep acc =
        (acc.1 + ((validPairs cards).map (fun pq => pq.1)).sum,
         acc.2.1 + ((validPairs cards).map (fun pq => pq.1 - pq.2)).sum,
         acc.2.2 + (validPairs cards).length) := by
  induction cards with
  | nil => intro acc; simp [validPairs]
  | cons c cs ih =>
    intro acc
    rw [List.foldl_cons, ih]
    cases h : cardValidPair c with
    | none => simp [updateStatsStep, h, validPairs, List.filterMap_cons]
    | some pq =>
      simp only [updateStatsStep, h, validPairs, List.filterMap_cons,
        List.map_cons, List.sum_cons, List.length_cons, Prod.mk.injEq]
      refine ⟨by ring, by ring, by omega⟩

/-- Claim C5, counterexample.  The claim states
`changePercent = totalChange / (totalValue - totalChange) * 100` whenever
the denominator is non-zero.  The code's guard is `totalValue > 0`
instead: for the single valid card with `regularMarketPrice = -10` and
`regularMarketPreviousClose = 5`, the denominator is `5 ≠ 0` and the
claimed formula gives `-300`, but the code renders `changePercent = 0`. -/
theorem C5_changePercent_guard_differs :
    (updateStats [some ⟨some (-10), some 5⟩]).totalValue -
      (updateStats [some ⟨some (-10), some 5⟩]).totalChange ≠ 0 ∧
    (updateStats [some ⟨some (-10), some 5⟩]).changePercent = some 0 ∧
    (updateStats [some ⟨some (-10), some 5⟩]).totalChange /
        ((updateStats [some ⟨some (-10), some 5⟩]).totalValue -
          (updateStats [some ⟨some (-10), some 5⟩]).totalChange) * 100 =
      -300 ∧
    (updateStats [some ⟨some (-10), some 5⟩]).changePercent ≠
      some ((updateStats [some ⟨some (-10), some 5⟩]).totalChange /
        ((updateStats [some ⟨some (-10), some 5⟩]).totalValue -
          (updateStats [some ⟨some (-10), some 5⟩]).totalChange) * 100) := by
  have hv : (updateStats [some ⟨some (-10), some 5⟩]).totalValue = -10 := by
    norm_num [updateStats, updateStatsLoop, updateStatsStep, cardValidPair]
  have hc : (updateStats [some ⟨some (-10), some 5⟩]).totalChange = -15 := by
    norm_num [updateStats, updateStatsLoop, updateStatsStep, cardValidPair]
  have hp : (updateStats [some ⟨some (-10), some 5⟩]).changePercent =
      some 0 := by
    norm_num [updateStats, updateStatsLoop, updateStatsStep, cardValidPair]
  refine ⟨by rw [hv, hc]; norm_num, hp, by rw [hv, hc]; norm_num, ?_⟩
  rw [hv, hc, hp]
  norm_num

/-- Claim C5 as amended.  `updateStats` sums only cards carrying a valid
snapshot (cards with no data, or with a falsy price or previous close,
contribute nothing): `totalValue` is the sum of the valid prices,
`totalChange` the sum of the valid `price - previousClose`, and
`validCards` their count; a `changePercent` is rendered only when at least
one valid card exists, equal to the claimed formula when `totalValue > 0`
and to `0` otherwise.  On the claim's concrete example
(A: price 10, change +1; B: price 20, change -2; no data for C) the total
change is `-1` and the C entry changes nothing. -/
theorem C5_amended_totals (cards : List (Option CardData)) :
    (updateStats cards).totalValue =
      ((validPairs cards).map (fun pq => pq.1)).sum ∧
    (updateStats cards).totalChange =
      ((validPairs cards).map (fun pq => pq.1 - pq.2)).sum ∧
    (updateStats cards).validCards = (validPairs cards).length ∧
    (updateStats cards).changePercent =
      (if 0 < (validPairs cards).length then
        some (if 0 < (updateStats cards).totalValue then
          (updateStats cards).totalChange /
            ((updateStats cards).totalValue -
              (updateStats cards).totalChange) * 100
        else 0)
      else none) ∧
    (updateStats [some ⟨some 10, some 9⟩, some ⟨some 20, some 22⟩,
        none]).totalChange = -1 ∧
    updateStats [some ⟨some 10, some 9⟩, some ⟨some 20, some 22⟩, none] =
      updateStats [some ⟨some 10, some 9⟩, some ⟨some 20, some 22⟩] := by
  have hfold : updateStatsLoop cards =
      (((validPairs cards).map (fun pq => pq.1)).sum,
       ((validPairs cards).map (fun pq => pq.1 - pq.2)).sum,
       (validPairs cards).length) := by
    rw [updateStatsLoop, foldl_updateStatsStep cards (0, 0, 0)]
    simp only [zero_add]
  have h1 : (updateStats cards).totalValue =
      ((validPairs cards).map (fun pq => pq.1)).sum := by
    rw [show (updateStats cards).totalValue = (updateStatsLoop cards).1 from
      rfl, hfold]
  have h2 : (updateStats cards).totalChange =
      ((validPairs cards).map (fun pq => pq.1 - pq.2)).sum := by
    rw [show (updateStats cards).totalChange = (updateStatsLoop cards).2.1 from
      rfl, hfold]
  have h3 : (updateStats cards).validCards = (validPairs cards).length := by
    rw [show (updateStats cards).validCards = (updateStatsLoop cards).2.2 from
      rfl, hfold]
  refine ⟨h1, h2, h3, ?_,
    by norm_num [updateStats, updateStatsLoop, updateStatsStep, cardValidPair],
    by norm_num [updateStats, updateStatsLoop, updateStatsStep, cardValidPair]⟩
  show (if 0 < (updateStatsLoop cards).2.2 then _ else none) = _
  rw [show (updateStatsLoop cards).2.2 = (updateStats cards).validCards from
    rfl, h3]
  rcases Nat.eq_zero_or_pos (validPairs cards).length with hz | hpos
  · simp [hz]
  · rw [if_pos hpos, if_pos hpos]
    rfl

/-- Claim C7 (confirmed).  `getMarketStatus` classifies with precedence
HOLIDAY over WEEKEND over the time-of-day windows: on a listed holiday the
text is "Market Holiday" whatever the time of day (and whatever the
weekday); otherwise on a non-trading weekday it is
"Market Closed - Weekend" whatever the time of day; otherwise, on a
trading day, it is open during configured market hours, in the extended
session (with the `isPreMarket` / `isAfterHours` flags identifying which
window) during the configured extended-hours windows, and closed at all
other times. -/
theorem C7_market_status_precedence (t : MarketTime) :
    (MARKET_HOLIDAYS.contains t.dateString = true →
      (getMarketStatus t).statusText = "Market Holiday" ∧
      (getMarketStatus t).status = "closed") ∧
    (MARKET_HOLIDAYS.contains t.dateString = false →
      MARKET_TRADING_DAYS.contains t.weekday = false →
      (getMarketStatus t).statusText = "Market Closed - Weekend" ∧
      (getMarketStatus t).status = "closed") ∧
    (MARKET_HOLIDAYS.contains t.dateString = false →
      MARKET_TRADING_DAYS.contains t.weekday = true →
      MARKET_OPEN_MIN ≤ t.timeMin → t.timeMin < MARKET_CLOSE_MIN →
      (getMarketStatus t).status = "open" ∧
      (getMarketStatus t).statusText = "Market Open") ∧
    (MARKET_HOLIDAYS.contains t.dateString = false →
      MARKET_TRADING_DAYS.contains t.weekday = true →
      PRE_MARKET_START_MIN ≤ t.timeMin → t.timeMin < PRE_MARKET_END_MIN →
      (getMarketStatus t).status = "extended" ∧
      (getMarketStatus t).isPreMarket = true ∧
      (getMarketStatus t).isAfterHours = false) ∧
    (MARKET_HOLIDAYS.contains t.dateString = false →
      MARKET_TRADING_DAYS.contains t.weekday = true →
      AFTER_HOURS_START_MIN ≤ t.timeMin → t.timeMin < AFTER_HOURS_END_MIN →
      (getMarketStatus t).status = "extended" ∧
      (getMarketStatus t).isAfterHours = true ∧
      (getMarketStatus t).isPreMarket = false) ∧
    (MARKET_HOLIDAYS.contains t.dateString = false →
      MARKET_TRADING_DAYS.contains t.weekday = true →
      t.timeMin < PRE_MARKET_START_MIN ∨ AFTER_HOURS_END_MIN ≤ t.timeMin →
      (getMarketStatus t).status = "closed" ∧
      (getMarketStatus t).statusText = "Market Closed") := by
  refine ⟨?_, ?_, ?_, ?_, ?_, ?_⟩
  · intro hh
    simp at hh
    simp [getMarketStatus, hh]
  · intro hh hw
    simp at hh hw
    simp [getMarketStatus, hh, hw]
  · intro hh hw h1 h2
    simp at hh hw
    simp only [MARKET_OPEN_MIN, MARKET_CLOSE_MIN] at h1 h2
    simp [getMarketStatus, MARKET_OPEN_MIN, MARKET_CLOSE_MIN,
      PRE_MARKET_START_MIN, PRE_MARKET_END_MIN, AFTER_HOURS_START_MIN,
      AFTER_HOURS_END_MIN, hh, hw, h1, h2,
      show ¬(t.timeMin < 570) by omega, show ¬(960 ≤ t.timeMin) by omega]
  · intro hh hw h1 h2
    simp at hh hw
    simp only [PRE_MARKET_START_MIN, PRE_MARKET_END_MIN] at h1 h2
    simp [getMarketStatus, MARKET_OPEN_MIN, MARKET_CLOSE_MIN,
      PRE_MARKET_START_MIN, PRE_MARKET_END_MIN, AFTER_HOURS_START_MIN,
      AFTER_HOURS_END_MIN, hh, hw, h1, h2,
      show ¬(570 ≤ t.timeMin) by omega, show ¬(960 ≤ t.timeMin) by omega]
  · intro hh hw h1 h2
    simp at hh hw
    simp only [AFTER_HOURS_START_MIN, AFTER_HOURS_END_MIN] at h1 h2
    simp [getMarketStatus, MARKET_OPEN_MIN, MARKET_CLOSE_MIN,
      PRE_MARKET_START_MIN, PRE_MARKET_END_MIN, AFTER_HOURS_START_MIN,
      AFTER_HOURS_END_MIN, hh, hw, h1, h2,
      show ¬(t.timeMin < 570) by omega, show ¬(t.timeMin < 960) by omega]
  · intro hh hw hout
    simp at hh hw
    simp only [PRE_MARKET_START_MIN, AFTER_HOURS_END_MIN] at hout
    rcases hout with h | h
    · simp [getMarketStatus, MARKET_OPEN_MIN, MARKET_CLOSE_MIN,
        PRE_MARKET_START_MIN, PRE_MARKET_END_MIN, AFTER_HOURS_START_MIN,
        AFTER_HOURS_END_MIN, hh, hw,
        show ¬(570 ≤ t.timeMin) by omega, show ¬(240 ≤ t.timeMin) by omega,
        show ¬(960 ≤ t.timeMin) by omega]
    · simp [getMarketStatus, MARKET_OPEN_MIN, MARKET_CLOSE_MIN,
        PRE_MARKET_START_MIN, PRE_MARKET_END_MIN, AFTER_HOURS_START_MIN,
        AFTER_HOURS_END_MIN, hh, hw,
        show ¬(t.timeMin < 960) by omega, show ¬(t.timeMin < 570) by omega,
        show ¬(t.timeMin < 1200) by omega]

/-- Witness for claim C7 at concrete instants: Christmas 2025 (a Thursday)
during market hours is still a holiday; a Saturday during market hours is
the weekend closure; a regular trading Wednesday at 10:00 is open. -/
theorem C7_market_status_precedence_witness :
    (getMarketStatus ⟨4, "2025-12-25", 600⟩).statusText = "Market Holiday" ∧
    (getMarketStatus ⟨6, "2025-06-14", 600⟩).statusText =
      "Market Closed - Weekend" ∧
    (getMarketStatus ⟨3, "2025-06-11", 600⟩).status = "open" := by
  refine ⟨((C7_market_status_precedence ⟨4, "2025-12-25", 600⟩).1
      (by decide)).1, ?_, ?_⟩
  · exact ((C7_market_status_precedence ⟨6, "2025-06-14", 600⟩).2.1
      (by decide) (by decide)).1
  · exact ((C7_market_status_precedence ⟨3, "2025-06-11", 600⟩).2.2.1
      (by decide) (by decide) (by decide) (by decide)).1

/-- Claim C8 (confirmed).  While a load for the symbol is outstanding
(`isLoading = true`), initiating another load is a no-op that issues no
fetch and changes no state: directly through `loadData`, through the
manual `refresh`, and through an auto-refresh timer tick (whatever the
document visibility and whatever the pending outcome would be). -/
theorem C8_at_most_one_inflight (outcome : Option CardData) (hidden : Bool)
    (s : CardState) (h : s.isLoading = true) :
    loadData outcome s = (s, 0) ∧ refresh outcome s = (s, 0) ∧
    autoRefreshTick hidden outcome s = (s, 0) := by
  have h1 : loadData outcome s = (s, 0) := by simp [loadData, h]
  refine ⟨h1, h1, ?_⟩
  simp [autoRefreshTick, h]

/-- Witness for claim C8: a card mid-load ignores a manual refresh and a
visible-tab auto-refresh tick. -/
theorem C8_at_most_one_inflight_witness :
    loadData none ⟨true, false, none, none⟩ = (⟨true, false, none, none⟩, 0) ∧
    refresh none ⟨true, false, none, none⟩ = (⟨true, false, none, none⟩, 0) ∧
    autoRefreshTick false none ⟨true, false, none, none⟩ =
      (⟨true, false, none, none⟩, 0) :=
  C8_at_most_one_inflight none false ⟨true, false, none, none⟩ rfl

/-- Claim C9 (confirmed against the spec-modelled Scheduler).  With
`MAX_RETRIES = 3` and `AUTO_PAUSE_ON_ERROR = true`: from IDLE with no
prior failures, three consecutive failing ticks leave the first two in
IDLE and drive the symbol to PAUSED with
`pausedUntil = t3 + AUTO_RESUME_DELAY`; every tick strictly before
`pausedUntil` issues no fetch and changes nothing; the first tick at or
after `pausedUntil` also issues no fetch and returns the symbol to IDLE
with `consecutiveFailures = 0`. -/
theorem C9_three_failures_pause_then_resume (interval t1 t2 t3 : Nat) :
    ((schedTick t1 false ⟨.idle, 0, interval, 0⟩).1.phase = .idle) ∧
    ((schedTick t2 false
        (schedTick t1 false ⟨.idle, 0, interval, 0⟩).1).1.phase = .idle) ∧
    ((schedTick t3 false (schedTick t2 false
        (schedTick t1 false ⟨.idle, 0, interval, 0⟩).1).1).1.phase
      = .paused) ∧
    ((schedTick t3 false (schedTick t2 false
        (schedTick t1 false ⟨.idle, 0, interval, 0⟩).1).1).1.pausedUntil
      = t3 + POLLING_AUTO_RESUME_DELAY) ∧
    (∀ now b, now < t3 + POLLING_AUTO_RESUME_DELAY →
      schedTick now b (schedTick t3 false (schedTick t2 false
          (schedTick t1 false ⟨.idle, 0, interval, 0⟩).1).1).1 =
        ((schedTick t3 false (schedTick t2 false
          (schedTick t1 false ⟨.idle, 0, interval, 0⟩).1).1).1, 0)) ∧
    (∀ now b, t3 + POLLING_AUTO_RESUME_DELAY ≤ now →
      (schedTick now b (schedTick t3 false (schedTick t2 false
          (schedTick t1 false ⟨.idle, 0, interval, 0⟩).1).1).1).2 = 0 ∧
      (schedTick now b (schedTick t3 false (schedTick t2 false
          (schedTick t1 false ⟨.idle, 0, interval, 0⟩).1).1).1).1.phase
        = .idle ∧
      (schedTick now b (schedTick t3 false (schedTick t2 false
          (schedTick t1 false ⟨.idle, 0, interval, 0⟩).1).1).1).1.consecutiveFailures
        = 0) := by
  have hs1 : (schedTick t1 false ⟨.idle, 0, interval, 0⟩).1 =
      ⟨.idle, 1, min (interval * POLLING_BACKOFF_MULTIPLIER)
        POLLING_MAX_INTERVAL, 0⟩ := by
    simp [schedTick, POLLING_MAX_RETRIES]
  have hs2 : (schedTick t2 false
      (schedTick t1 false ⟨.idle, 0, interval, 0⟩).1).1 =
      ⟨.idle, 2, min (min (interval * POLLING_BACKOFF_MULTIPLIER)
        POLLING_MAX_INTERVAL * POLLING_BACKOFF_MULTIPLIER)
        POLLING_MAX_INTERVAL, 0⟩ := by
    rw [hs1]
    simp [schedTick, POLLING_MAX_RETRIES]
  have hs3 : (schedTick t3 false (schedTick t2 false
      (schedTick t1 false ⟨.idle, 0, interval, 0⟩).1).1).1 =
      ⟨.paused, 3, min (min (min (interval * POLLING_BACKOFF_MULTIPLIER)
        POLLING_MAX_INTERVAL * POLLING_BACKOFF_MULTIPLIER)
        POLLING_MAX_INTERVAL * POLLING_BACKOFF_MULTIPLIER)
        POLLING_MAX_INTERVAL, t3 + POLLING_AUTO_RESUME_DELAY⟩ := by
    rw [hs2]
    simp [schedTick, POLLING_MAX_RETRIES, POLLING_AUTO_PAUSE_ON_ERROR]
  refine ⟨by rw [hs1], by rw [hs2], by rw [hs3], by rw [hs3], ?_, ?_⟩
  · intro now b hlt
    rw [hs3]
    simp [schedTick]
    omega
  · intro now b hge
    rw [hs3]
    simp [schedTick, hge]

/-- Witness for claim C9: with the base interval 30000 and failures at
instants 0, 0, 0, a tick at instant 5 (before the resume point) is a
no-op, and a tick at instant 30000 resumes to IDLE with the failure count
cleared and no fetch issued. -/
theorem C9_three_failures_pause_then_resume_witness :
    ((schedTick 0 false (schedTick 0 false
        (schedTick 0 false ⟨.idle, 0, 30000, 0⟩).1).1).1.phase = .paused) ∧
    (schedTick 5 true (schedTick 0 false (schedTick 0 false
        (schedTick 0 false ⟨.idle, 0, 30000, 0⟩).1).1).1 =
      ((schedTick 0 false (schedTick 0 false
        (schedTick 0 false ⟨.idle, 0, 30000, 0⟩).1).1).1, 0)) ∧
    ((schedTick 30000 true (schedTick 0 false (schedTick 0 false
        (schedTick 0 false ⟨.idle, 0, 30000, 0⟩).1).1).1).1.phase = .idle) :=
  ⟨(C9_three_failures_pause_then_resume 30000 0 0 0).2.2.1,
   (C9_three_failures_pause_then_resume 30000 0 0 0).2.2.2.2.1 5 true
     (by decide),
   ((C9_three_failures_pause_then_resume 30000 0 0 0).2.2.2.2.2 30000 true
     (by decide)).2.1⟩

/-- Claim C10 (confirmed).  `initializeConfig` returns true exactly when
the environment-merged configuration satisfies all four validated
constraints (MIN_INTERVAL below MAX_INTERVAL, DEFAULT_INTERVAL inside the
interval bounds, positive CACHE.MAX_SIZE, CURRENCY_DECIMALS between 0 and
10); when it returns false, `validateConfig` threw on the merged
configuration and the exception was swallowed. -/
theorem C10_initializeConfig_iff_valid (c : Config) :
    (initializeConfig c = true ↔
      ((applyEnvironmentConfig c).pollingMinInterval <
          (applyEnvironmentConfig c).pollingMaxInterval ∧
        (applyEnvironmentConfig c).pollingMinInterval ≤
          (applyEnvironmentConfig c).pollingDefaultInterval ∧
        (applyEnvironmentConfig c).pollingDefaultInterval ≤
          (applyEnvironmentConfig c).pollingMaxInterval ∧
        0 < (applyEnvironmentConfig c).cacheMaxSize ∧
        0 ≤ (applyEnvironmentConfig c).currencyDecimals ∧
        (applyEnvironmentConfig c).currencyDecimals ≤ 10)) ∧
    (initializeConfig c = false →
      validateConfig (applyEnvironmentConfig c) =
        Except.error "Configuration validation failed") := by
  have key : (validateConfigErrors (applyEnvironmentConfig c)).isEmpty = true ↔
      ((applyEnvironmentConfig c).pollingMinInterval <
          (applyEnvironmentConfig c).pollingMaxInterval ∧
        (applyEnvironmentConfig c).pollingMinInterval ≤
          (applyEnvironmentConfig c).pollingDefaultInterval ∧
        (applyEnvironmentConfig c).pollingDefaultInterval ≤
          (applyEnvironmentConfig c).pollingMaxInterval ∧
        0 < (applyEnvironmentConfig c).cacheMaxSize ∧
        0 ≤ (applyEnvironmentConfig c).currencyDecimals ∧
        (applyEnvironmentConfig c).currencyDecimals ≤ 10) := by
    rw [validateConfigErrors]
    split_ifs <;> simp_all <;> omega
  constructor
  · rw [initializeConfig, validateConfig]
    by_cases hempty :
        (validateConfigErrors (applyEnvironmentConfig c)).isEmpty = true
    · rw [if_pos hempty]
      simpa using key.mp hempty
    · rw [if_neg hempty]
      constructor
      · intro h
        simp at h
      · intro hcon
        exact absurd (key.mpr hcon) hempty
  · intro hfalse
    rw [initializeConfig] at hfalse
    rw [validateConfig] at hfalse ⊢
    by_cases hempty :
        (validateConfigErrors (applyEnvironmentConfig c)).isEmpty = true
    · rw [if_pos hempty] at hfalse
      simp at hfalse
    · rw [if_neg hempty]

/-- Witness for claim C10: the shipped production configuration
(MIN 5000, MAX 3600000, DEFAULT 30000, cache 5 MiB, 2 decimals) validates,
and a configuration with MIN_INTERVAL at or above MAX_INTERVAL makes
`initializeConfig` return false with `validateConfig` throwing. -/
theorem C10_initializeConfig_iff_valid_witness :
    initializeConfig ⟨.production, 5000, 3600000, 30000, 5242880, 2⟩ = true ∧
    validateConfig (applyEnvironmentConfig
        ⟨.production, 10, 5, 7, 1, 2⟩) =
      Except.error "Configuration validation failed" :=
  ⟨(C10_initializeConfig_iff_valid
      ⟨.production, 5000, 3600000, 30000, 5242880, 2⟩).1.mpr
      (by refine ⟨by decide, by decide, by decide, by decide, by decide,
        by decide⟩),
   (C10_initializeConfig_iff_valid ⟨.production, 10, 5, 7, 1, 2⟩).2
      (by decide)⟩

end StockDashboard
